import Mathlib

/-!
Shallow embedding of the two core components of the astro repository:

* `SqlAppendOperator.append` from `src/astro/sql/operators/agnostic_sql_append.py`
  (the INSERT ... FROM SELECT statement builder), and
* `SaveFile` from `src/astro/sql/operators/agnostic_save_file.py`
  (hook dispatch, existence probe, overwrite policy and serializer dispatch).

External calls (the sqlalchemy module attribute table, schema reflection, the
smart_open transport, pandas serialization) are modelled as parameters or
explicit effect traces, keeping the control flow and evaluation order of the
Python source.
-/

namespace AstroSQL

/-! ### Table Append/Union component (`agnostic_sql_append.py`) -/

/-- One expression of the SELECT list built by `append`: either a plain
sqlalchemy `column(c)` reference, or `cast(column(k), T)` for a cast entry. -/
inductive SelExpr where
  | col (name : String)
  | cast (name : String) (typeName : String)
deriving DecidableEq, Repr

/-- The statement returned by `append`: `insert(main_table).from_select(
main_columns, select(column_names))`, i.e. the destination column list of the
main table paired with the list of selected expressions from the append
table. -/
structure InsertFromSelect where
  mainColumns : List String
  selected : List SelExpr
deriving DecidableEq, Repr

/-- Python `getattr(sqlalchemy, v)`: succeeds exactly when `v` is among the
attribute names the sqlalchemy module exposes (passed in as `sqlaAttrs`,
since the module is external), otherwise raises `AttributeError`. -/
def getattrSqla (sqlaAttrs : List String) (v : String) : Except String String :=
  if v ∈ sqlaAttrs then .ok v else .error ("AttributeError: " ++ v)

/-- The list comprehension
`[cast(column(k), getattr(sqlalchemy, v)) for k, v in casted_columns.items()]`:
entries are processed left to right and the first failing `getattr` aborts the
whole construction. `casted_columns` is a list of key-value pairs, in the
mapping's iteration order. -/
def buildCastedFields (sqlaAttrs : List String) :
    List (String × String) → Except String (List SelExpr)
  | [] => .ok []
  | kv :: rest =>
    match getattrSqla sqlaAttrs kv.2 with
    | .error e => .error e
    | .ok t => (buildCastedFields sqlaAttrs rest).map fun fs => SelExpr.cast kv.1 t :: fs

/-- `SqlAppendOperator.append`, after both tables have been reflected
(`appendTableCols` is the column name list reflected from the append table's
schema, in schema order):

* `column_names` starts as plain column references for `columns`;
* `casted_fields` is built from `casted_columns` via `getattr`;
* `main_columns` is the casted keys followed by `columns`;
* when both lists are empty, both `column_names` and `main_columns` fall back
  to the append table's full reflected column list;
* finally `column_names.extend(casted_fields)` and the statement is
  `insert(main_table).from_select(main_columns, select(column_names))`. -/
def append (sqlaAttrs : List String) (columns : List String)
    (casted_columns : List (String × String)) (appendTableCols : List String) :
    Except String InsertFromSelect :=
  let column_names := columns.map SelExpr.col
  match buildCastedFields sqlaAttrs casted_columns with
  | .error e => .error e
  | .ok casted_fields =>
    let main_columns := casted_columns.map (fun kv => kv.1) ++ columns
    if column_names.length + casted_fields.length == 0 then
      .ok ⟨appendTableCols, appendTableCols.map SelExpr.col ++ casted_fields⟩
    else
      .ok ⟨main_columns, column_names ++ casted_fields⟩

/-- `SqlAppendOperator.execute`: it first builds `self.sql` by calling
`append` and only afterwards hands the statement to `super().execute`. The
Boolean records whether the built statement was executed; when statement
construction raises, nothing is executed. -/
def sqlAppendExecuteRun (sqlaAttrs : List String) (columns : List String)
    (casted_columns : List (String × String)) (appendTableCols : List String) :
    Except String InsertFromSelect × Bool :=
  match append sqlaAttrs columns casted_columns appendTableCols with
  | .ok s => (.ok s, true)
  | .error e => (.error e, false)

/-- `buildCastedFields` preserves the number of entries when it succeeds. -/
theorem buildCastedFields_length (sqlaAttrs : List String) :
    ∀ (l : List (String × String)) (fs : List SelExpr),
      buildCastedFields sqlaAttrs l = .ok fs → fs.length = l.length := by
  intro l
  induction l with
  | nil =>
    intro fs h
    simp only [buildCastedFields] at h
    cases h
    rfl
  | cons kv rest ih =>
    intro fs h
    simp only [buildCastedFields] at h
    cases hg : getattrSqla sqlaAttrs kv.2 with
    | error e => rw [hg] at h; cases h
    | ok t =>
      rw [hg] at h
      cases hr : buildCastedFields sqlaAttrs rest with
      | error e => rw [hr] at h; cases h
      | ok fs2 =>
        rw [hr] at h
        simp only [Except.map] at h
        cases h
        simp [ih fs2 hr]

/-- When some entry of the cast map has a type name that is not an attribute
of the sqlalchemy module, `buildCastedFields` fails with an
`AttributeError` naming some such type name. -/
theorem buildCastedFields_error_of_bad (sqlaAttrs : List String) :
    ∀ (l : List (String × String)) (kv : String × String),
      kv ∈ l → kv.2 ∉ sqlaAttrs →
      ∃ v, v ∉ sqlaAttrs ∧
        buildCastedFields sqlaAttrs l = .error ("AttributeError: " ++ v) := by
  intro l
  induction l with
  | nil => intro kv hmem; cases hmem
  | cons hd rest ih =>
    intro kv hmem hbad
    by_cases hhd : hd.2 ∈ sqlaAttrs
    · have hkv : kv ∈ rest := by
        cases hmem with
        | head => exact absurd hhd hbad
        | tail _ h => exact h
      obtain ⟨v, hv, herr⟩ := ih kv hkv hbad
      refine ⟨v, hv, ?_⟩
      simp only [buildCastedFields, getattrSqla, if_pos hhd, herr]
      rfl
    · refine ⟨hd.2, hhd, ?_⟩
      simp only [buildCastedFields, getattrSqla, if_neg hhd]

/-- C1: the spec claims that append over source `(id, amount)` with
`columns` = `id` alone and a cast of `amount` to `Float` yields a statement
inserting into `(amount, id)` while selecting `(CAST(amount AS FLOAT), id)`,
aligned position by position. The code instead extends the plain column list
with the cast expressions, so it selects `(id, CAST(amount AS FLOAT))`: the
selected expressions are misaligned with the destination columns. -/
theorem append_cast_select_misaligned :
    append ["Float"] ["id"] [("amount", "Float")] ["id", "amount"] =
      .ok ⟨["amount", "id"], [SelExpr.col "id", SelExpr.cast "amount" "Float"]⟩ ∧
    [SelExpr.col "id", SelExpr.cast "amount" "Float"] ≠
      [SelExpr.cast "amount" "Float", SelExpr.col "id"] :=
  ⟨rfl, by decide⟩

/-- C5: with an empty explicit column list and an empty cast map, `append`
falls back to the append table's reflected column list, in schema order: the
destination column list is exactly those names, every selected expression is
the plain passthrough column of the same name, and the selection matches the
destination list position by position with no casts. -/
theorem append_empty_falls_back_to_source_schema :
    ∀ (sqlaAttrs appendTableCols : List String),
      append sqlaAttrs [] [] appendTableCols =
        .ok ⟨appendTableCols, appendTableCols.map SelExpr.col⟩ := by
  intro sqlaAttrs appendTableCols
  simp [append, buildCastedFields]

/-- C6: whenever the cast map is non-empty and statement construction
succeeds, the destination column list of the insert is exactly the cast-map
keys, in the mapping's iteration order, followed by the explicit `columns`
entries in their given order. -/
theorem append_main_columns_casted_first (sqlaAttrs columns : List String)
    (casted_columns : List (String × String)) (appendTableCols : List String)
    (st : InsertFromSelect)
    (hne : casted_columns ≠ [])
    (hok : append sqlaAttrs columns casted_columns appendTableCols = .ok st) :
    st.mainColumns = casted_columns.map (fun kv => kv.1) ++ columns := by
  cases hcf : buildCastedFields sqlaAttrs casted_columns with
  | error e =>
    simp only [append, hcf] at hok
    exact Except.noConfusion hok
  | ok casted_fields =>
    simp only [append, hcf] at hok
    have hlen : casted_fields.length = casted_columns.length :=
      buildCastedFields_length sqlaAttrs casted_columns casted_fields hcf
    have hpos : 0 < casted_fields.length := by
      rw [hlen]
      exact List.length_pos.mpr hne
    have hcond : ((columns.map SelExpr.col).length + casted_fields.length == 0) = false := by
      simp only [beq_eq_false_iff_ne, ne_eq]
      omega
    rw [hcond] at hok
    simp only [Bool.false_eq_true, if_false] at hok
    injection hok with h
    rw [← h]

/-- Witness for C6 at a concrete input. -/
theorem append_main_columns_casted_first_witness :
    append ["Float"] ["id"] [("amount", "Float")] ["id", "amount"] =
      .ok ⟨["amount", "id"], [SelExpr.col "id", SelExpr.cast "amount" "Float"]⟩ ∧
    (["amount", "id"] : List String) =
      [("amount", "Float")].map (fun kv => kv.1) ++ ["id"] :=
  ⟨rfl, append_main_columns_casted_first ["Float"] ["id"] [("amount", "Float")]
    ["id", "amount"] ⟨["amount", "id"], [SelExpr.col "id", SelExpr.cast "amount" "Float"]⟩
    (by decide) rfl⟩

/-- C8: a cast entry whose target type name is not an attribute of the
sqlalchemy module makes `append` fail with an attribute lookup error while the
statement is being constructed, and the operator executes no statement. -/
theorem append_unknown_cast_type_errors (sqlaAttrs columns : List String)
    (casted_columns : List (String × String)) (appendTableCols : List String)
    (kv : String × String) (hmem : kv ∈ casted_columns) (hbad : kv.2 ∉ sqlaAttrs) :
    ∃ v, v ∉ sqlaAttrs ∧
      append sqlaAttrs columns casted_columns appendTableCols =
        .error ("AttributeError: " ++ v) ∧
      (sqlAppendExecuteRun sqlaAttrs columns casted_columns appendTableCols).2 = false := by
  obtain ⟨v, hv, herr⟩ :=
    buildCastedFields_error_of_bad sqlaAttrs casted_columns kv hmem hbad
  refine ⟨v, hv, ?_, ?_⟩
  · simp only [append, herr]
  · simp only [sqlAppendExecuteRun, append, herr]

/-- Witness for C8 at a concrete input: casting to the unknown type name
`Floot` fails during construction and nothing is executed. -/
theorem append_unknown_cast_type_errors_witness :
    ∃ v, v ∉ ["Float", "Integer"] ∧
      append ["Float", "Integer"] ["id"] [("amount", "Floot")] ["id", "amount"] =
        .error ("AttributeError: " ++ v) ∧
      (sqlAppendExecuteRun ["Float", "Integer"] ["id"] [("amount", "Floot")]
        ["id", "amount"]).2 = false :=
  append_unknown_cast_type_errors ["Float", "Integer"] ["id"] [("amount", "Floot")]
    ["id", "amount"] ("amount", "Floot") (by decide) (by decide)

/-! ### File Export component (`agnostic_save_file.py`) -/

/-- Python-level exception kinds that `SaveFile` can surface. -/
inductive PyErr where
  | keyError (key : String)
  | fileExistsError
  | attributeError (attr : String)
  | uncaughtException
deriving DecidableEq, Repr

/-- Serialization options passed to the pandas writer: the `index` keyword,
the `orient` keyword, and the `lines` keyword (absent keywords are `none`). -/
structure SerOpts where
  index : Option Bool
  orient : Option String
  lines : Option Bool
deriving DecidableEq, Repr

/-- Observable side effects of `SaveFile`, in the order they are performed. -/
inductive Effect where
  | credProvider (scheme : String)
  | openRead
  | openWrite
  | serialize (fmt : String) (opts : SerOpts)
deriving DecidableEq, Repr

/-- The `transport_params` dict lookup, keyed by the URI scheme of the output
path: scheme `s3` invokes the s3 credential provider, scheme `gs` invokes the
gcs credential provider, the empty scheme invokes a lambda returning `None`
(so no credential provider runs), and any other scheme raises `KeyError`
before anything else happens. Returns the credential effects performed. -/
def transportParams (scheme : String) : Except PyErr (List Effect) :=
  if scheme = "s3" then .ok [.credProvider "s3"]
  else if scheme = "gs" then .ok [.credProvider "gs"]
  else if scheme = "" then .ok []
  else .error (.keyError scheme)

/-- The serialization routine selected by the `serialiser` dict: the pandas
method invoked for each output format. An unknown format raises `KeyError`. -/
inductive Routine where
  | toParquet
  | toCsv
  | toJson
deriving DecidableEq, Repr

/-- The `serialiser` dict: `parquet` uses `df.to_parquet`, `csv` uses
`df.to_csv`, and both `json` and `ndjson` use `df.to_json`; any other format
name raises `KeyError`. -/
def serialiser (fmt : String) : Except PyErr Routine :=
  if fmt = "parquet" then .ok .toParquet
  else if fmt = "csv" then .ok .toCsv
  else if fmt = "json" then .ok .toJson
  else if fmt = "ndjson" then .ok .toJson
  else .error (.keyError fmt)

/-- The `serialiser_params` dict read through `.get(fmt, dict())`: `csv`
passes `index=False`, `json` passes `orient="records"`, `ndjson` passes
`orient="records", lines=True`, and every other format (including `parquet`)
gets no extra options. -/
def serialiserParams (fmt : String) : SerOpts :=
  if fmt = "csv" then ⟨some false, none, none⟩
  else if fmt = "json" then ⟨none, some "records", none⟩
  else if fmt = "ndjson" then ⟨none, some "records", some true⟩
  else ⟨none, none, none⟩

/-- `SaveFile.agnostic_write_file`: first the transport lookup by scheme
(`KeyError` on an unknown scheme, with no effect performed), then the
destination is opened for write in binary mode — `smart_open` with mode `wb`
creates or truncates it — and only then is the serializer looked up by
`output_file_format` inside the `with` body; an unknown format therefore
raises `KeyError` after the open. Returns the effect trace and the outcome. -/
def agnostic_write_file (scheme fmt : String) : List Effect × Except PyErr Unit :=
  match transportParams scheme with
  | .error e => ([], .error e)
  | .ok creds =>
    match serialiser fmt with
    | .error e => (creds ++ [.openWrite], .error e)
    | .ok _ => (creds ++ [.openWrite, .serialize fmt (serialiserParams fmt)], .ok ())

/-- Outcome of the external `open(output_file_path, mode="r")` call inside
`file_exists`: it succeeds, raises an exception of class `IOError` (`OSError`),
or raises an exception of some other class. -/
inductive OpenResult where
  | success
  | ioError
  | otherError
deriving DecidableEq, Repr

/-- `SaveFile.file_exists`: the transport lookup by scheme (`KeyError` on an
unknown scheme, before any open), then `open` for read in a `try` block whose
only handler is `except IOError: return False`. Success returns `True`, an
`IOError` returns `False`, and an exception of any other class is not caught
and propagates out of the probe. -/
def file_exists (scheme : String) (openRes : OpenResult) :
    List Effect × Except PyErr Bool :=
  match transportParams scheme with
  | .error e => ([], .error e)
  | .ok creds =>
    match openRes with
    | .success => (creds ++ [.openRead], .ok true)
    | .ioError => (creds ++ [.openRead], .ok false)
    | .otherError => (creds ++ [.openRead], .error .uncaughtException)

/-- The write policy of `SaveFile.execute`: `if self.overwrite == True or not
self.file_exists(...)`. When `overwrite` is true the disjunction
short-circuits, so the existence probe never runs and the write proceeds
directly; otherwise the probe runs, a probe result of `True` raises
`FileExistsError` without writing, and a probe result of `False` lets the
write proceed. -/
def executeWritePolicy (overwrite : Bool) (scheme fmt : String)
    (openRes : OpenResult) : List Effect × Except PyErr Unit :=
  if overwrite then agnostic_write_file scheme fmt
  else
    match file_exists scheme openRes with
    | (t, .ok true) => (t, .error .fileExistsError)
    | (t, .ok false) =>
      let w := agnostic_write_file scheme fmt
      (t ++ w.1, w.2)
    | (t, .error e) => (t, .error e)

/-- The database hooks `SaveFile.execute` can construct. -/
inductive Hook where
  | postgres
  | snowflake
  | bigquery
deriving DecidableEq, Repr

/-- The `input_hook` dict literal of `SaveFile.execute` followed by
`.get(conn_type, None)`: evaluating the dict literal instantiates all three
hooks eagerly, whatever `conn_type` is, and the lookup then yields the
matching hook or `None`. Returns the instantiated hooks and the dispatch
result. -/
def hookDispatch (connType : String) : List Hook × Option Hook :=
  ([.postgres, .snowflake, .bigquery],
   if connType = "postgres" then some .postgres
   else if connType = "snowflake" then some .snowflake
   else if connType = "bigquery" then some .bigquery
   else none)

/-- `input_hook.get_sqlalchemy_engine()`: requesting the engine from `None`
raises `AttributeError` (there is no explicit unsupported-backend error in the
code); a real hook yields its engine. -/
def getSqlalchemyEngine : Option Hook → Except PyErr Hook
  | none => .error (.attributeError "get_sqlalchemy_engine")
  | some h => .ok h

/-- The hook-resolution prefix of `SaveFile.execute`: instantiate the three
hooks, dispatch on `conn_type`, then request the sqlalchemy engine. -/
def resolveEngine (connType : String) : List Hook × Except PyErr Hook :=
  let d := hookDispatch connType
  (d.1, getSqlalchemyEngine d.2)

/-- Models pandas `DataFrame.to_json` with `orient="records"`: a row is
rendered as one JSON object whose keys are exactly the row's column names (no
row-index field is ever emitted in this orientation). -/
def renderRecord (row : List (String × String)) : String :=
  "\x7b" ++ String.intercalate "," (row.map fun kv => "\"" ++ kv.1 ++ "\":" ++ kv.2)
    ++ "\x7d"

/-- Models pandas `DataFrame.to_json` with `orient="records"` and the `lines`
keyword: with `lines=True` the record objects are joined by single newlines
with no enclosing array; with `lines=False` they form a JSON array. -/
def toJsonRecords (lines : Bool) (rows : List (List (String × String))) : String :=
  if lines then String.intercalate "\n" (rows.map renderRecord)
  else "[" ++ String.intercalate "," (rows.map renderRecord) ++ "]"

/-- When the transport lookup succeeds, the credential effects are one of the
three literal possibilities of the `transport_params` dict. -/
theorem transportParams_ok_cases (scheme : String) (creds : List Effect)
    (h : transportParams scheme = .ok creds) :
    creds = [.credProvider "s3"] ∨ creds = [.credProvider "gs"] ∨ creds = [] := by
  unfold transportParams at h
  split_ifs at h <;> simp_all

/-- The write path never opens the destination for read. -/
theorem write_trace_no_openRead (scheme fmt : String) :
    Effect.openRead ∉ (agnostic_write_file scheme fmt).1 := by
  unfold agnostic_write_file
  cases htp : transportParams scheme with
  | error e => simp
  | ok creds =>
    rcases transportParams_ok_cases scheme creds htp with h | h | h <;> subst h <;>
      cases serialiser fmt <;> simp

/-- The existence probe neither opens the destination for write nor
serializes anything. -/
theorem probe_trace_no_write (scheme : String) (r : OpenResult) :
    Effect.openWrite ∉ (file_exists scheme r).1 ∧
      ∀ f o, Effect.serialize f o ∉ (file_exists scheme r).1 := by
  unfold file_exists
  cases htp : transportParams scheme with
  | error e => simp
  | ok creds =>
    rcases transportParams_ok_cases scheme creds htp with h | h | h <;> subst h <;>
      cases r <;> simp

/-- C2 counterexample: on the unknown format `xml` (empty scheme), the
operation does fail with a `KeyError` lookup failure, but only after the
destination has already been opened for write — so the destination is touched
(created or truncated), contrary to the claim. -/
theorem write_unknown_format_opens_destination :
    (agnostic_write_file "" "xml").2 = .error (.keyError "xml") ∧
    Effect.openWrite ∈ (agnostic_write_file "" "xml").1 :=
  ⟨rfl, by simp [agnostic_write_file, transportParams, serialiser]⟩

/-- C2 amended: for every known scheme and unknown format, the export fails
with a `KeyError` on the format and never serializes any content, but the
destination is opened for write (created or truncated) before the lookup
failure. -/
theorem write_unknown_format_amended (scheme fmt : String)
    (hs : scheme = "s3" ∨ scheme = "gs" ∨ scheme = "")
    (hf : fmt ≠ "csv" ∧ fmt ≠ "parquet" ∧ fmt ≠ "json" ∧ fmt ≠ "ndjson") :
    (agnostic_write_file scheme fmt).2 = .error (.keyError fmt) ∧
    (∀ f o, Effect.serialize f o ∉ (agnostic_write_file scheme fmt).1) ∧
    Effect.openWrite ∈ (agnostic_write_file scheme fmt).1 := by
  obtain ⟨h1, h2, h3, h4⟩ := hf
  have hser : serialiser fmt = .error (.keyError fmt) := by
    simp [serialiser, h1, h2, h3, h4]
  rcases hs with h | h | h <;> subst h <;>
    simp [agnostic_write_file, transportParams, hser]

/-- Witness for the amended C2 at scheme-less path and format `xml`. -/
theorem write_unknown_format_amended_witness :
    (agnostic_write_file "" "xml").2 = .error (.keyError "xml") ∧
    (∀ f o, Effect.serialize f o ∉ (agnostic_write_file "" "xml").1) ∧
    Effect.openWrite ∈ (agnostic_write_file "" "xml").1 :=
  write_unknown_format_amended "" "xml" (Or.inr (Or.inr rfl))
    ⟨by decide, by decide, by decide, by decide⟩

/-- C3 counterexample: when the open-for-read raises an exception that is not
an `IOError`, the probe does not report the destination as absent — the
exception propagates uncaught instead of returning `False`. -/
theorem probe_nonio_error_propagates :
    (file_exists "" OpenResult.otherError).2 = .error PyErr.uncaughtException ∧
    (file_exists "" OpenResult.otherError).2 ≠ .ok false :=
  ⟨rfl, fun h => Except.noConfusion h⟩

/-- C3 amended: for every known scheme, an `IOError` from the open-for-read is
reported as "does not exist", a successful open is reported as existing, an
exception of any other class propagates out of the probe uncaught, and the
probe reports existence exactly when the open succeeds. -/
theorem probe_ioerror_amended (scheme : String)
    (hs : scheme = "s3" ∨ scheme = "gs" ∨ scheme = "") :
    (file_exists scheme OpenResult.ioError).2 = .ok false ∧
    (file_exists scheme OpenResult.success).2 = .ok true ∧
    (file_exists scheme OpenResult.otherError).2 = .error PyErr.uncaughtException ∧
    (∀ r, (file_exists scheme r).2 = .ok true ↔ r = OpenResult.success) := by
  rcases hs with h | h | h <;> subst h <;>
    exact ⟨rfl, rfl, rfl, fun r => by
      cases r <;> simp [file_exists, transportParams]⟩

/-- Witness for the amended C3 at the empty (local) scheme. -/
theorem probe_ioerror_amended_witness :
    (file_exists "" OpenResult.ioError).2 = .ok false ∧
    (file_exists "" OpenResult.success).2 = .ok true ∧
    (file_exists "" OpenResult.otherError).2 = .error PyErr.uncaughtException ∧
    (∀ r, (file_exists "" r).2 = .ok true ↔ r = OpenResult.success) :=
  probe_ioerror_amended "" (Or.inr (Or.inr rfl))

/-- C4: the overwrite policy of `SaveFile.execute`. With `overwrite` true the
write proceeds directly and the existence probe is never consulted (no
open-for-read appears in the trace); with `overwrite` false and a probe that
reports the destination present, the operation raises `FileExistsError` and
performs no write (no open-for-write, no serialization); with `overwrite`
false and a probe that reports absence, the write proceeds. -/
theorem overwrite_policy (overwrite : Bool) (scheme fmt : String) (r : OpenResult) :
    (overwrite = true →
      executeWritePolicy overwrite scheme fmt r = agnostic_write_file scheme fmt ∧
      Effect.openRead ∉ (executeWritePolicy overwrite scheme fmt r).1) ∧
    (overwrite = false → (file_exists scheme r).2 = .ok true →
      (executeWritePolicy overwrite scheme fmt r).2 = .error PyErr.fileExistsError ∧
      Effect.openWrite ∉ (executeWritePolicy overwrite scheme fmt r).1 ∧
      ∀ f o, Effect.serialize f o ∉ (executeWritePolicy overwrite scheme fmt r).1) ∧
    (overwrite = false → (file_exists scheme r).2 = .ok false →
      executeWritePolicy overwrite scheme fmt r =
        ((file_exists scheme r).1 ++ (agnostic_write_file scheme fmt).1,
         (agnostic_write_file scheme fmt).2)) := by
  refine ⟨?_, ?_, ?_⟩
  · intro hov
    subst hov
    exact ⟨rfl, write_trace_no_openRead scheme fmt⟩
  · intro hov hex
    subst hov
    simp only [executeWritePolicy, Bool.false_eq_true, if_false]
    cases hfe : file_exists scheme r with
    | mk t res =>
      have hres : res = .ok true := by rw [← hex, hfe]
      subst hres
      have ht : t = (file_exists scheme r).1 := by rw [hfe]
      refine ⟨rfl, ?_, ?_⟩
      · rw [ht]; exact (probe_trace_no_write scheme r).1
      · intro f o; rw [ht]; exact (probe_trace_no_write scheme r).2 f o
  · intro hov hex
    subst hov
    simp only [executeWritePolicy, Bool.false_eq_true, if_false]
    cases hfe : file_exists scheme r with
    | mk t res =>
      have hres : res = .ok false := by rw [← hex, hfe]
      subst hres
      have ht : t = (file_exists scheme r).1 := by rw [hfe]
      rw [ht]

/-- Witness for C4: with overwrite false against an existing local
destination, the operation fails with `FileExistsError`. -/
theorem overwrite_policy_witness :
    (executeWritePolicy false "" "csv" OpenResult.success).2 =
      .error PyErr.fileExistsError :=
  ((overwrite_policy false "" "csv" OpenResult.success).2.1 rfl rfl).1

/-- C7: the serializer dispatch is fixed per format — `csv` uses `to_csv`
with the row-index column disabled, `json` uses `to_json` in records (array of
objects) orientation, `ndjson` uses `to_json` in records orientation with one
JSON object per line, `parquet` uses `to_parquet` — and a 3-row table
rendered as ndjson is exactly 3 newline-separated JSON objects with no
enclosing array brackets and no index field. -/
theorem format_dispatch_and_ndjson :
    serialiser "csv" = .ok Routine.toCsv ∧
    serialiserParams "csv" = ⟨some false, none, none⟩ ∧
    serialiser "json" = .ok Routine.toJson ∧
    serialiserParams "json" = ⟨none, some "records", none⟩ ∧
    serialiser "ndjson" = .ok Routine.toJson ∧
    serialiserParams "ndjson" = ⟨none, some "records", some true⟩ ∧
    serialiser "parquet" = .ok Routine.toParquet ∧
    toJsonRecords true [[("a", "1")], [("a", "2")], [("a", "3")]] =
      renderRecord [("a", "1")] ++ "\n" ++ renderRecord [("a", "2")] ++ "\n" ++
        renderRecord [("a", "3")] ∧
    toJsonRecords true [[("a", "1")], [("a", "2")], [("a", "3")]] =
      "\x7b\"a\":1\x7d\n\x7b\"a\":2\x7d\n\x7b\"a\":3\x7d" ∧
    toJsonRecords false [[("a", "1")], [("a", "2")], [("a", "3")]] =
      "[\x7b\"a\":1\x7d,\x7b\"a\":2\x7d,\x7b\"a\":3\x7d]" :=
  ⟨rfl, rfl, rfl, rfl, rfl, rfl, rfl, by decide, by decide, by decide⟩

/-- C9: for every URI scheme other than `s3`, `gs` and the empty scheme, both
the existence probe and the write dispatch fail immediately with a `KeyError`
on the scheme, with an empty effect trace: no open is attempted and no
credential provider is invoked. -/
theorem unknown_scheme_keyerror (scheme : String)
    (h1 : scheme ≠ "s3") (h2 : scheme ≠ "gs") (h3 : scheme ≠ "")
    (fmt : String) (r : OpenResult) :
    file_exists scheme r = ([], .error (.keyError scheme)) ∧
    agnostic_write_file scheme fmt = ([], .error (.keyError scheme)) := by
  have htp : transportParams scheme = .error (.keyError scheme) := by
    simp [transportParams, h1, h2, h3]
  constructor
  · simp [file_exists, htp]
  · simp [agnostic_write_file, htp]

/-- Witness for C9 at scheme `http`. -/
theorem unknown_scheme_keyerror_witness :
    file_exists "http" OpenResult.success = ([], .error (.keyError "http")) ∧
    agnostic_write_file "http" "csv" = ([], .error (.keyError "http")) :=
  unknown_scheme_keyerror "http" (by decide) (by decide) (by decide) "csv"
    OpenResult.success

/-- C10: for a connection type that is none of `postgres`, `snowflake`,
`bigquery`, the dict dispatch yields `None` and requesting the sqlalchemy
engine fails with an `AttributeError` (not an explicit unsupported-backend
error); moreover the dict literal instantiates all three backend hooks
eagerly on every invocation, whatever the connection type is. -/
theorem unsupported_conn_type_attribute_error (connType : String)
    (h1 : connType ≠ "postgres") (h2 : connType ≠ "snowflake")
    (h3 : connType ≠ "bigquery") :
    resolveEngine connType =
      ([Hook.postgres, Hook.snowflake, Hook.bigquery],
       .error (.attributeError "get_sqlalchemy_engine")) ∧
    ∀ ct : String, (hookDispatch ct).1 = [Hook.postgres, Hook.snowflake, Hook.bigquery] := by
  refine ⟨?_, fun ct => rfl⟩
  simp [resolveEngine, hookDispatch, getSqlalchemyEngine, h1, h2, h3]

/-- Witness for C10 at connection type `mysql`. -/
theorem unsupported_conn_type_attribute_error_witness :
    resolveEngine "mysql" =
      ([Hook.postgres, Hook.snowflake, Hook.bigquery],
       .error (.attributeError "get_sqlalchemy_engine")) ∧
    ∀ ct : String, (hookDispatch ct).1 = [Hook.postgres, Hook.snowflake, Hook.bigquery] :=
  unsupported_conn_type_attribute_error "mysql" (by decide) (by decide) (by decide)

end AstroSQL
